import Mathlib

/-!
Verification of the aiosmtplib client fragment against its specification.

The source fragment under verification contains the public API module
`src/src/aiosmtplib/api.py` and the TLS test-suite. The protocol engine
itself (`smtp.py`, `esmtp.py`, `connection.py`) is not part of the
fragment; where a claim depends on it, the relevant operation is modelled
from the specification text (marked `Modelled from the spec:` below).
-/

/-- An SMTP reply: a three-digit code and the joined message text
(spec section 3, `Response`). -/
structure SMTPResponse where
  code : Nat
  message : String
deriving DecidableEq

/-- Session state tracked by the client (spec section 3, `SessionState`;
field names follow the attributes checked by the tests:
`esmtp_extensions`, `supported_auth_methods`, `supports_esmtp`). -/
structure SMTPSession where
  ehlo_done : Bool
  supports_esmtp : Bool
  esmtp_extensions : List (String × String)
  supported_auth_methods : List String
  max_size : Option Nat
  encrypted : Bool
deriving DecidableEq

/-- The all-clear session a client starts with. -/
def SMTPSession.empty : SMTPSession :=
  { ehlo_done := false
    supports_esmtp := false
    esmtp_extensions := []
    supported_auth_methods := []
    max_size := none
    encrypted := false }

/-- Connection status of the client (spec section 4.9 state machine,
collapsed to the connected/disconnected distinction the claims use). -/
inductive ConnState where
  | disconnected
  | connected
deriving DecidableEq

/-- Client state: connection status, session state, and the trace of
command lines written to the stream. -/
structure ClientState where
  conn : ConnState
  session : SMTPSession
  sentCommands : List String
deriving DecidableEq

/-- `is_connected` property of the client. -/
def ClientState.is_connected (st : ClientState) : Bool :=
  st.conn == ConnState.connected

/-- Error taxonomy (spec section 7). -/
inductive SMTPError where
  | notSupported (message : String)
  | responseError (code : Nat) (message : String)
  | serverDisconnected
  | connectError (message : String)
  | senderRefused (code : Nat) (message : String)
  | recipientsRefused (rejected : List (String × SMTPResponse))
  | dataError (code : Nat) (message : String)
deriving DecidableEq

/-- Whether the session advertises the named ESMTP extension. -/
def hasExtension (s : SMTPSession) (name : String) : Bool :=
  s.esmtp_extensions.any (fun p => p.1 == name)

/- ------------------------------------------------------------------
The public send entry point, embedded from src/src/aiosmtplib/api.py.
------------------------------------------------------------------ -/

/-- The `message` argument of `send_message`: either a structured
`email.message.Message` object or raw text/bytes. -/
inductive MessageParam where
  | messageObject
  | raw (content : String)
deriving DecidableEq

/-- What `send_message` does with its arguments: raise `ValueError`
before any connection is attempted, or proceed to connect and send
(`useMessageHeaders = true` means the `Message` path, where absent
sender/recipients are taken from the headers). -/
inductive SendCall where
  | valueError (message : String)
  | connectAndSend (useMessageHeaders : Bool) (sender : Option String)
      (recipients : Option (List String))
deriving DecidableEq

/-- Embeds `send_message` from src/src/aiosmtplib/api.py (lines 104-130):
for a non-`Message` argument it first checks `recipients is None`, then
`sender is None`, raising `ValueError` before any connection is made;
otherwise it connects and dispatches to the client. -/
def send_message (message : MessageParam) (sender : Option String)
    (recipients : Option (List String)) : SendCall :=
  match message with
  | MessageParam.messageObject => SendCall.connectAndSend true sender recipients
  | MessageParam.raw _ =>
      if recipients.isNone then
        SendCall.valueError "Recipients must be provided with raw messages."
      else if sender.isNone then
        SendCall.valueError "Sender must be provided with raw messages."
      else SendCall.connectAndSend false sender recipients

/-- Modelled from the spec: default port selection at connect time
(section 4.8; `connection.py`, which owns this logic, is not in the
source fragment): "The default port is 465 when `use_tls`, 587 when
`start_tls`, 25 otherwise." -/
def defaultPort (use_tls start_tls : Bool) : Nat :=
  if use_tls then 465 else if start_tls then 587 else 25

/-- The port a connection uses: the supplied one, or the default. -/
def effectivePort (port : Option Nat) (use_tls start_tls : Bool) : Nat :=
  match port with
  | some p => p
  | none => defaultPort use_tls start_tls

/- ------------------------------------------------------------------
STARTTLS and EHLO, modelled from the spec (smtp.py / esmtp.py are not
in the source fragment).
------------------------------------------------------------------ -/

/-- Outcome of the in-place TLS upgrade attempted after a 220 reply. -/
inductive TLSUpgradeOutcome where
  | success
  | connectionLost
deriving DecidableEq

/-- Modelled from the spec: section 4.5 STARTTLS (the client module
implementing it is not in the source fragment). If `STARTTLS` is not
advertised, fail with `NotSupported` without writing anything. Otherwise
send `STARTTLS` and read the reply: on 220 perform the TLS upgrade — on
success clear the session state entirely and mark `encrypted = true`; on
connection loss fail with `ServerDisconnected` (state machine: fatal
errors go to `Disconnected`). On any code other than 220 leave the
session state untouched and fail with a response error carrying that
code. -/
def starttls (st : ClientState) (reply : SMTPResponse)
    (upgrade : TLSUpgradeOutcome) : ClientState × Except SMTPError SMTPResponse :=
  if hasExtension st.session "STARTTLS" then
    let sent : ClientState :=
      { st with sentCommands := st.sentCommands ++ ["STARTTLS"] }
    if reply.code = 220 then
      match upgrade with
      | TLSUpgradeOutcome.success =>
          ({ sent with session := { SMTPSession.empty with encrypted := true } },
            Except.ok reply)
      | TLSUpgradeOutcome.connectionLost =>
          ({ sent with conn := ConnState.disconnected },
            Except.error SMTPError.serverDisconnected)
    else
      (sent, Except.error (SMTPError.responseError reply.code reply.message))
  else
    (st, Except.error
      (SMTPError.notSupported "SMTP STARTTLS extension not supported by server."))

/-- One EHLO reply line split on the first whitespace into the
uppercased extension token and its arguments (spec section 4.4). -/
def parseExtensionLine (line : String) : String × String :=
  match line.splitOn " " with
  | [] => ("", "")
  | w :: rest => (w.toUpper, String.intercalate " " rest)

/-- Record one EHLO extension line in the session: store the
(token, args) pair; `AUTH` additionally populates the auth mechanisms,
`SIZE` parses its argument as `max_size` (spec section 4.4). -/
def applyEhloLine (s : SMTPSession) (line : String) : SMTPSession :=
  let p := parseExtensionLine line
  let s1 : SMTPSession :=
    { s with esmtp_extensions := s.esmtp_extensions ++ [p] }
  if p.1 = "AUTH" then
    { s1 with supported_auth_methods :=
        s1.supported_auth_methods ++ (p.2.splitOn " ").filter (fun w => w ≠ "") }
  else if p.1 = "SIZE" then
    { s1 with max_size := p.2.toNat? }
  else s1

/-- Modelled from the spec: section 4.4 EHLO (the client module
implementing it is not in the source fragment). Sends `EHLO`; on a 250
reply, clears all extension state and repopulates it from the reply's
extension lines (the first reply line is the greeting and is already
discarded in `extLines`); the `encrypted` flag is not part of the
extension state and is preserved. On any other code, fails with a
response error (the HELO fallback for 500/502 is outside the claims
under verification). -/
def ehlo (st : ClientState) (reply : SMTPResponse) (extLines : List String) :
    ClientState × Except SMTPError SMTPResponse :=
  let sent : ClientState :=
    { st with sentCommands := st.sentCommands ++ ["EHLO"] }
  if reply.code = 250 then
    let cleared : SMTPSession :=
      { SMTPSession.empty with
          encrypted := st.session.encrypted
          ehlo_done := true
          supports_esmtp := true }
    ({ sent with session := extLines.foldl applyEhloLine cleared }, Except.ok reply)
  else
    (sent, Except.error (SMTPError.responseError reply.code reply.message))

/-- `applyEhloLine` adds exactly one entry to the extension table. -/
theorem applyEhloLine_extensions_length (s : SMTPSession) (line : String) :
    (applyEhloLine s line).esmtp_extensions.length =
      s.esmtp_extensions.length + 1 := by
  simp only [applyEhloLine]
  split
  · simp
  · split <;> simp

/-- `applyEhloLine` never touches the `encrypted` flag. -/
theorem applyEhloLine_encrypted (s : SMTPSession) (line : String) :
    (applyEhloLine s line).encrypted = s.encrypted := by
  simp only [applyEhloLine]
  split
  · rfl
  · split <;> rfl

/-- Folding the EHLO lines grows the extension table by one per line. -/
theorem foldl_applyEhloLine_length (ls : List String) (s : SMTPSession) :
    (ls.foldl applyEhloLine s).esmtp_extensions.length =
      s.esmtp_extensions.length + ls.length := by
  induction ls generalizing s with
  | nil => simp
  | cons l t ih =>
      simp only [List.foldl_cons, List.length_cons, ih,
        applyEhloLine_extensions_length]
      omega

/-- Folding the EHLO lines preserves the `encrypted` flag. -/
theorem foldl_applyEhloLine_encrypted (ls : List String) (s : SMTPSession) :
    (ls.foldl applyEhloLine s).encrypted = s.encrypted := by
  induction ls generalizing s with
  | nil => rfl
  | cons l t ih => rw [List.foldl_cons, ih, applyEhloLine_encrypted]

/-- After a 250 EHLO reply with at least one extension line, the
extension table is non-empty and the `encrypted` flag is unchanged. -/
theorem ehlo_250_repopulates (st : ClientState) (reply : SMTPResponse)
    (extLines : List String) (hcode : reply.code = 250) (hlines : extLines ≠ []) :
    (ehlo st reply extLines).1.session.esmtp_extensions ≠ [] ∧
    (ehlo st reply extLines).1.session.encrypted = st.session.encrypted := by
  simp only [ehlo, hcode, if_pos]
  constructor
  · intro hnil
    have hlen := foldl_applyEhloLine_length extLines
      { SMTPSession.empty with
          encrypted := st.session.encrypted
          ehlo_done := true
          supports_esmtp := true }
    rw [hnil] at hlen
    simp [SMTPSession.empty] at hlen
    exact hlines (List.length_eq_zero.mp hlen.symm)
  · rw [foldl_applyEhloLine_encrypted]

/-- Sample pre-STARTTLS session used by the witnesses: EHLO done, two
extensions advertised, cleartext channel. -/
def sampleSession : SMTPSession :=
  { ehlo_done := true
    supports_esmtp := true
    esmtp_extensions := [("STARTTLS", ""), ("SIZE", "1000000")]
    supported_auth_methods := ["PLAIN", "LOGIN"]
    max_size := some 1000000
    encrypted := false }

/-- Sample connected client used by the witnesses. -/
def sampleClient : ClientState :=
  { conn := ConnState.connected, session := sampleSession, sentCommands := [] }

/-- Sample client whose EHLO reply did not advertise STARTTLS. -/
def sampleClientNoTLS : ClientState :=
  { sampleClient with session :=
      { sampleSession with esmtp_extensions := [("SIZE", "1000000")] } }

/- ------------------------------------------------------------------
Theorems for claims C4, C10, C7.
------------------------------------------------------------------ -/

/-- C4: for a raw (non-Message) message, a missing sender or missing
recipients argument makes `send_message` fail with `ValueError` before
any connection is attempted; for a structured `Message` no such
pre-connection check is made and the call proceeds with headers
available as fallback. -/
theorem send_message_raw_requires_args (content : String) (sender : Option String)
    (recipients : Option (List String)) (h : sender = none ∨ recipients = none) :
    (∃ m, send_message (MessageParam.raw content) sender recipients =
      SendCall.valueError m) ∧
    (∀ s r, send_message MessageParam.messageObject s r =
      SendCall.connectAndSend true s r) := by
  constructor
  · cases hr : recipients with
    | none =>
        exact ⟨"Recipients must be provided with raw messages.", by
          simp [send_message]⟩
    | some rs =>
        cases hs : sender with
        | none =>
            exact ⟨"Sender must be provided with raw messages.", by
              simp [send_message]⟩
        | some s0 =>
            cases h with
            | inl hl => exact absurd hs (hl ▸ by simp)
            | inr hr2 => exact absurd hr (hr2 ▸ by simp)
  · intro s r
    rfl

/-- Witness for C4 at a concrete input. -/
theorem send_message_raw_requires_args_witness :
    ((none : Option String) = none ∨ (none : Option (List String)) = none) ∧
    ((∃ m, send_message (MessageParam.raw "body") none none =
      SendCall.valueError m) ∧
    (∀ s r, send_message MessageParam.messageObject s r =
      SendCall.connectAndSend true s r)) :=
  ⟨Or.inl rfl, send_message_raw_requires_args "body" none none (Or.inl rfl)⟩

/-- C10: with a raw message and both sender and recipients absent, the
error raised is the missing-recipients one — the recipients check runs
first (api.py lines 104-108). -/
theorem send_message_recipients_checked_first (content : String) :
    send_message (MessageParam.raw content) none none =
      SendCall.valueError "Recipients must be provided with raw messages." :=
  rfl

/-- C7: when no port is supplied, the port used is 465 under `use_tls`,
587 under `start_tls`, and 25 otherwise. -/
theorem effectivePort_defaults :
    effectivePort none true false = 465 ∧
    effectivePort none false true = 587 ∧
    effectivePort none false false = 25 :=
  ⟨rfl, rfl, rfl⟩

/- ------------------------------------------------------------------
Theorems for claims C1, C2, C3, C5.
------------------------------------------------------------------ -/

/-- C1: after STARTTLS is answered 220 and the TLS upgrade succeeds, the
session state is entirely cleared (extensions empty, auth mechanisms
empty, esmtp flag reset) and the channel is marked encrypted; after the
subsequent EHLO (250 with at least one extension line) the extensions
are repopulated while the channel stays encrypted. -/
theorem starttls_success_clears_then_ehlo_repopulates
    (st : ClientState) (reply ehloReply : SMTPResponse) (extLines : List String)
    (hext : hasExtension st.session "STARTTLS" = true)
    (hcode : reply.code = 220)
    (hehlo : ehloReply.code = 250)
    (hlines : extLines ≠ []) :
    (starttls st reply TLSUpgradeOutcome.success).1.session.esmtp_extensions = [] ∧
    (starttls st reply TLSUpgradeOutcome.success).1.session.supported_auth_methods = [] ∧
    (starttls st reply TLSUpgradeOutcome.success).1.session.supports_esmtp = false ∧
    (starttls st reply TLSUpgradeOutcome.success).1.session.encrypted = true ∧
    (ehlo (starttls st reply TLSUpgradeOutcome.success).1 ehloReply
      extLines).1.session.esmtp_extensions ≠ [] ∧
    (ehlo (starttls st reply TLSUpgradeOutcome.success).1 ehloReply
      extLines).1.session.encrypted = true := by
  have hstep : (starttls st reply TLSUpgradeOutcome.success).1 =
      { conn := st.conn
        session := { SMTPSession.empty with encrypted := true }
        sentCommands := st.sentCommands ++ ["STARTTLS"] } := by
    simp [starttls, hext, hcode]
  rw [hstep]
  have hrepop := ehlo_250_repopulates
    { conn := st.conn
      session := { SMTPSession.empty with encrypted := true }
      sentCommands := st.sentCommands ++ ["STARTTLS"] } ehloReply extLines hehlo hlines
  exact ⟨rfl, rfl, rfl, rfl, hrepop.1, hrepop.2⟩

/-- Witness for C1 at a concrete session. -/
theorem starttls_success_clears_then_ehlo_repopulates_witness :
    hasExtension sampleClient.session "STARTTLS" = true ∧
    ((starttls sampleClient ⟨220, "go"⟩
        TLSUpgradeOutcome.success).1.session.esmtp_extensions = [] ∧
    (starttls sampleClient ⟨220, "go"⟩
        TLSUpgradeOutcome.success).1.session.supported_auth_methods = [] ∧
    (starttls sampleClient ⟨220, "go"⟩
        TLSUpgradeOutcome.success).1.session.supports_esmtp = false ∧
    (starttls sampleClient ⟨220, "go"⟩
        TLSUpgradeOutcome.success).1.session.encrypted = true ∧
    (ehlo (starttls sampleClient ⟨220, "go"⟩ TLSUpgradeOutcome.success).1
      ⟨250, "ok"⟩ ["STARTTLS", "SIZE 1000000"]).1.session.esmtp_extensions ≠ [] ∧
    (ehlo (starttls sampleClient ⟨220, "go"⟩ TLSUpgradeOutcome.success).1
      ⟨250, "ok"⟩ ["STARTTLS", "SIZE 1000000"]).1.session.encrypted = true) :=
  ⟨by decide, starttls_success_clears_then_ehlo_repopulates sampleClient
    ⟨220, "go"⟩ ⟨250, "ok"⟩ ["STARTTLS", "SIZE 1000000"]
    (by decide) rfl rfl (by decide)⟩

/-- C2: when the server answers STARTTLS with any code other than 220,
the call fails with a response error carrying that code, and the session
state and connection status are exactly as before the attempt. -/
theorem starttls_refused_preserves_state (st : ClientState) (reply : SMTPResponse)
    (upg : TLSUpgradeOutcome)
    (hext : hasExtension st.session "STARTTLS" = true)
    (hcode : reply.code ≠ 220) :
    (starttls st reply upg).1.session = st.session ∧
    (starttls st reply upg).1.conn = st.conn ∧
    (starttls st reply upg).2 =
      Except.error (SMTPError.responseError reply.code reply.message) := by
  simp [starttls, hext, hcode]

/-- Witness for C2 at the 454-refusal of the test suite. -/
theorem starttls_refused_preserves_state_witness :
    hasExtension sampleClient.session "STARTTLS" = true ∧
    (454 : Nat) ≠ 220 ∧
    ((starttls sampleClient ⟨454, "tls not available"⟩
        TLSUpgradeOutcome.success).1.session = sampleClient.session ∧
    (starttls sampleClient ⟨454, "tls not available"⟩
        TLSUpgradeOutcome.success).1.conn = sampleClient.conn ∧
    (starttls sampleClient ⟨454, "tls not available"⟩
        TLSUpgradeOutcome.success).2 =
      Except.error (SMTPError.responseError 454 "tls not available")) :=
  ⟨by decide, by decide, starttls_refused_preserves_state sampleClient
    ⟨454, "tls not available"⟩ TLSUpgradeOutcome.success (by decide) (by decide)⟩

/-- C3: when STARTTLS was not advertised by the EHLO reply, `starttls`
fails with `NotSupported` and nothing is written to the stream — the
client state, its command trace included, is untouched. -/
theorem starttls_not_supported (st : ClientState) (reply : SMTPResponse)
    (upg : TLSUpgradeOutcome)
    (hext : hasExtension st.session "STARTTLS" = false) :
    (starttls st reply upg).1 = st ∧
    (starttls st reply upg).1.sentCommands = st.sentCommands ∧
    (starttls st reply upg).2 = Except.error
      (SMTPError.notSupported "SMTP STARTTLS extension not supported by server.") := by
  simp [starttls, hext]

/-- Witness for C3 at a session without the STARTTLS extension. -/
theorem starttls_not_supported_witness :
    hasExtension sampleClientNoTLS.session "STARTTLS" = false ∧
    ((starttls sampleClientNoTLS ⟨220, "go"⟩ TLSUpgradeOutcome.success).1 =
        sampleClientNoTLS ∧
    (starttls sampleClientNoTLS ⟨220, "go"⟩
        TLSUpgradeOutcome.success).1.sentCommands = sampleClientNoTLS.sentCommands ∧
    (starttls sampleClientNoTLS ⟨220, "go"⟩ TLSUpgradeOutcome.success).2 =
      Except.error (SMTPError.notSupported
        "SMTP STARTTLS extension not supported by server.")) :=
  ⟨by decide, starttls_not_supported sampleClientNoTLS ⟨220, "go"⟩
    TLSUpgradeOutcome.success (by decide)⟩

/-- C5: when the server answers STARTTLS with 220 but the connection is
lost before the TLS upgrade completes, the call fails with
`ServerDisconnected` and the client ends in the Disconnected state. -/
theorem starttls_disconnect_before_upgrade (st : ClientState) (reply : SMTPResponse)
    (hext : hasExtension st.session "STARTTLS" = true)
    (hcode : reply.code = 220) :
    (starttls st reply TLSUpgradeOutcome.connectionLost).2 =
      Except.error SMTPError.serverDisconnected ∧
    (starttls st reply TLSUpgradeOutcome.connectionLost).1.conn =
      ConnState.disconnected ∧
    (starttls st reply TLSUpgradeOutcome.connectionLost).1.is_connected = false := by
  refine ⟨?_, ?_, ?_⟩ <;> simp [starttls, hext, hcode, ClientState.is_connected]

/-- Witness for C5 at the 220-then-close server of the test suite. -/
theorem starttls_disconnect_before_upgrade_witness :
    hasExtension sampleClient.session "STARTTLS" = true ∧
    ((starttls sampleClient ⟨220, "Go for it"⟩
        TLSUpgradeOutcome.connectionLost).2 =
      Except.error SMTPError.serverDisconnected ∧
    (starttls sampleClient ⟨220, "Go for it"⟩
        TLSUpgradeOutcome.connectionLost).1.conn = ConnState.disconnected ∧
    (starttls sampleClient ⟨220, "Go for it"⟩
        TLSUpgradeOutcome.connectionLost).1.is_connected = false) :=
  ⟨by decide, starttls_disconnect_before_upgrade sampleClient
    ⟨220, "Go for it"⟩ (by decide) rfl⟩

/- ------------------------------------------------------------------
Connection establishment, modelled from the spec (connection.py is not
in the source fragment).
------------------------------------------------------------------ -/

/-- How a connect attempt plays out at the transport level: TCP setup
fails, the TLS handshake fails (e.g. an implicit-TLS client pointed at a
non-TLS server), the greeting cannot be read, or a greeting reply
arrives. -/
inductive ConnectOutcome where
  | tcpFailure
  | tlsHandshakeFailure
  | greetingNotRead
  | greeting (reply : SMTPResponse)
deriving DecidableEq

/-- The connect attempts the claim calls failures: transport or TLS
setup failed, the greeting could not be read, or it was not 220. -/
def ConnectOutcome.isFailure : ConnectOutcome → Bool
  | ConnectOutcome.greeting reply => reply.code != 220
  | _ => true

/-- Modelled from the spec: section 4.8 connection establishment
(connection.py is not in the source fragment). A failure to establish
TCP, complete the TLS handshake, or read the 220 greeting is a
`ConnectError` and leaves the client disconnected; a 220 greeting makes
the client connected. -/
def connect (st : ClientState) (outcome : ConnectOutcome) :
    ClientState × Except SMTPError SMTPResponse :=
  match outcome with
  | ConnectOutcome.tcpFailure =>
      ({ st with conn := ConnState.disconnected },
        Except.error (SMTPError.connectError "could not establish the TCP connection"))
  | ConnectOutcome.tlsHandshakeFailure =>
      ({ st with conn := ConnState.disconnected },
        Except.error (SMTPError.connectError "the TLS handshake failed"))
  | ConnectOutcome.greetingNotRead =>
      ({ st with conn := ConnState.disconnected },
        Except.error (SMTPError.connectError "could not read the server greeting"))
  | ConnectOutcome.greeting reply =>
      if reply.code = 220 then
        ({ st with conn := ConnState.connected }, Except.ok reply)
      else
        ({ st with conn := ConnState.disconnected },
          Except.error (SMTPError.connectError reply.message))

/- ------------------------------------------------------------------
The send phase, modelled from the spec (smtp.py is not in the source
fragment).
------------------------------------------------------------------ -/

/-- Result of a successful send (spec section 3, `SendResult`). -/
structure SendResult where
  rejected : List (String × SMTPResponse)
  final : SMTPResponse
deriving DecidableEq

/-- A RCPT reply accepts the recipient when its code is 250 or 251
(spec section 4.7 step 7). -/
def rcptAccepted (r : SMTPResponse) : Bool :=
  r.code == 250 || r.code == 251

/-- Modelled from the spec: section 4.7 send orchestrator steps 6-9
(smtp.py is not in the source fragment). The MAIL reply must be 250
(else `SenderRefused`); every RCPT reply that is not 250/251 puts its
recipient in `rejected`; if every recipient is rejected the send fails
with `RecipientsRefused`; DATA must be answered 354 and the end-of-DATA
reply must be 2xx (else `DataError`); otherwise the send returns
`SendResult` with the rejected map and the end-of-DATA reply. -/
def sendPhase (mailReply : SMTPResponse) (rcptReplies : List (String × SMTPResponse))
    (dataReply finalReply : SMTPResponse) : Except SMTPError SendResult :=
  if mailReply.code ≠ 250 then
    Except.error (SMTPError.senderRefused mailReply.code mailReply.message)
  else
    let rejected := rcptReplies.filter (fun p => !(rcptAccepted p.2))
    if rejected.length = rcptReplies.length then
      Except.error (SMTPError.recipientsRefused rejected)
    else if dataReply.code ≠ 354 then
      Except.error (SMTPError.responseError dataReply.code dataReply.message)
    else if !(200 ≤ finalReply.code && finalReply.code < 300) then
      Except.error (SMTPError.dataError finalReply.code finalReply.message)
    else
      Except.ok { rejected := rejected, final := finalReply }

/- ------------------------------------------------------------------
Dot-stuffing, modelled from the spec (the data-encoding helper is not
in the source fragment). A message body is its list of lines; a line is
a list of characters.
------------------------------------------------------------------ -/

/-- Modelled from the spec: dot-stuffing of one body line (sections 4.7
step 8 and 8; the encoding helper is not in the source fragment): a line
beginning with `.` is prefixed with an extra `.`. -/
def stuffLine (l : List Char) : List Char :=
  match l with
  | '.' :: _ => '.' :: l
  | _ => l

/-- Dot-stuffing of a whole body, line by line. -/
def stuff (body : List (List Char)) : List (List Char) :=
  body.map stuffLine

/-- Modelled from the spec: the receiving side of the transparency
mechanism — a transmitted line beginning with `.` drops that first
`.`. -/
def unstuffLine (l : List Char) : List Char :=
  match l with
  | '.' :: rest => rest
  | _ => l

/-- Un-stuffing of a whole body, line by line. -/
def unstuff (body : List (List Char)) : List (List Char) :=
  body.map unstuffLine

/-- Un-stuffing one stuffed line restores it. -/
theorem unstuffLine_stuffLine (l : List Char) : unstuffLine (stuffLine l) = l := by
  match l with
  | [] => rfl
  | c :: rest =>
      by_cases h : c = '.'
      · subst h; rfl
      · have hs : stuffLine (c :: rest) = c :: rest := by
          unfold stuffLine
          split
          · rename_i heq
            rw [List.cons.injEq] at heq
            exact absurd heq.1 h
          · rfl
        rw [hs]
        unfold unstuffLine
        split
        · rename_i heq
          rw [List.cons.injEq] at heq
          exact absurd heq.1 h
        · rfl

/-- A stuffed line is never the lone-dot line. -/
theorem stuffLine_ne_dot (l : List Char) : stuffLine l ≠ ['.'] := by
  unfold stuffLine
  split
  · rename_i rest heq
    intro hcontra
    rw [List.cons.injEq] at hcontra
    exact List.cons_ne_nil _ _ hcontra.2
  · rename_i hne
    intro hcontra
    exact hne _ hcontra

/- ------------------------------------------------------------------
Theorems for claims C9, C6, C8.
------------------------------------------------------------------ -/

/-- C9: every connect attempt that fails to establish TCP, complete the
TLS handshake, or read the 220 greeting fails with `ConnectError` and
leaves the client not connected. -/
theorem connect_failure_is_connectError (st : ClientState) (outcome : ConnectOutcome)
    (h : outcome.isFailure = true) :
    (∃ m, (connect st outcome).2 = Except.error (SMTPError.connectError m)) ∧
    (connect st outcome).1.is_connected = false := by
  cases outcome with
  | tcpFailure => exact ⟨⟨_, rfl⟩, rfl⟩
  | tlsHandshakeFailure => exact ⟨⟨_, rfl⟩, rfl⟩
  | greetingNotRead => exact ⟨⟨_, rfl⟩, rfl⟩
  | greeting reply =>
      have hc : ¬ reply.code = 220 := by
        simpa [ConnectOutcome.isFailure] using h
      constructor
      · exact ⟨reply.message, by simp [connect, hc]⟩
      · simp [connect, hc, ClientState.is_connected]

/-- Witness for C9 at a failed TCP attempt. -/
theorem connect_failure_is_connectError_witness :
    ConnectOutcome.tcpFailure.isFailure = true ∧
    ((∃ m, (connect sampleClient ConnectOutcome.tcpFailure).2 =
        Except.error (SMTPError.connectError m)) ∧
    (connect sampleClient ConnectOutcome.tcpFailure).1.is_connected = false) :=
  ⟨rfl, connect_failure_is_connectError sampleClient ConnectOutcome.tcpFailure rfl⟩

/-- C6: every successful send returns a `SendResult` whose `rejected`
component holds exactly the recipients the server refused (paired with
the refusing replies) and whose `final` component is the end-of-DATA
reply; and when every recipient is rejected the send fails instead of
returning a result. -/
theorem sendPhase_result_shape (mailReply : SMTPResponse)
    (rcptReplies : List (String × SMTPResponse)) (dataReply finalReply : SMTPResponse) :
    (∀ res, sendPhase mailReply rcptReplies dataReply finalReply = Except.ok res →
      res.final = finalReply ∧
      ∀ q, q ∈ rcptReplies → (q ∈ res.rejected ↔ rcptAccepted q.2 = false)) ∧
    ((∀ q, q ∈ rcptReplies → rcptAccepted q.2 = false) →
      ∀ res, sendPhase mailReply rcptReplies dataReply finalReply ≠ Except.ok res) := by
  constructor
  · intro res hok
    simp only [sendPhase] at hok
    split at hok
    · exact Except.noConfusion hok
    · split at hok
      · exact Except.noConfusion hok
      · split at hok
        · exact Except.noConfusion hok
        · split at hok
          · exact Except.noConfusion hok
          · injection hok with hres
            subst hres
            refine ⟨rfl, ?_⟩
            intro q hq
            simp [List.mem_filter, hq]
  · intro hall res hok
    have hfe : rcptReplies.filter (fun p => !(rcptAccepted p.2)) = rcptReplies := by
      rw [List.filter_eq_self]
      intro a ha
      simp [hall a ha]
    simp only [sendPhase] at hok
    split at hok
    · exact Except.noConfusion hok
    · split at hok
      · exact Except.noConfusion hok
      · rename_i hlen
        exact absurd (congrArg List.length hfe) hlen

/-- Witness for C6: a send with one accepted and one refused recipient,
checked against the theorem at that concrete input. -/
theorem sendPhase_result_shape_witness :
    sendPhase ⟨250, "ok"⟩ [("a", ⟨250, "ok"⟩), ("b", ⟨550, "no such user"⟩)]
        ⟨354, "go"⟩ ⟨250, "queued"⟩ =
      Except.ok { rejected := [("b", ⟨550, "no such user"⟩)], final := ⟨250, "queued"⟩ } ∧
    ({ rejected := [("b", ⟨550, "no such user"⟩)],
        final := ⟨250, "queued"⟩ } : SendResult).final = ⟨250, "queued"⟩ ∧
    (("b", (⟨550, "no such user"⟩ : SMTPResponse)) ∈
      ({ rejected := [("b", ⟨550, "no such user"⟩)],
          final := ⟨250, "queued"⟩ } : SendResult).rejected ↔
      rcptAccepted ⟨550, "no such user"⟩ = false) := by
  have h := (sendPhase_result_shape ⟨250, "ok"⟩
      [("a", ⟨250, "ok"⟩), ("b", ⟨550, "no such user"⟩)] ⟨354, "go"⟩ ⟨250, "queued"⟩).1
    { rejected := [("b", ⟨550, "no such user"⟩)], final := ⟨250, "queued"⟩ } rfl
  exact ⟨rfl, h.1, h.2 _ (by decide)⟩

/-- C8: dot-stuffing round-trips — un-stuffing the stuffed body yields
the body back — and the stuffed body contains no line consisting solely
of a dot. -/
theorem stuff_unstuff_roundtrip (body : List (List Char)) :
    unstuff (stuff body) = body ∧ ∀ l, l ∈ stuff body → l ≠ ['.'] := by
  constructor
  · induction body with
    | nil => rfl
    | cons hd t ih =>
        show unstuffLine (stuffLine hd) :: unstuff (stuff t) = hd :: t
        rw [unstuffLine_stuffLine, ih]
  · intro l hl
    simp only [stuff] at hl
    rcases List.mem_map.mp hl with ⟨orig, _, rfl⟩
    exact stuffLine_ne_dot orig

/-- Witness for C8 at a concrete body with a dot-initial line. -/
theorem stuff_unstuff_roundtrip_witness :
    unstuff (stuff [['h', 'i'], ['.', 'x'], ['.']]) = [['h', 'i'], ['.', 'x'], ['.']] ∧
    ∀ l, l ∈ stuff [['h', 'i'], ['.', 'x'], ['.']] → l ≠ ['.'] :=
  stuff_unstuff_roundtrip [['h', 'i'], ['.', 'x'], ['.']]
